import Mathlib

/-!
Verification of `src/server/similarity_functions/similarity.py` (the `Similarity`
class): verse preprocessing, GloVe vector building, the cosine similarity matrix,
and the `get_similar_values` top-k query.

Modelling conventions:
* Python dicts describing verses gain keys (`tokenized_text`, `vector`) during the
  build; they are modelled as `Option` fields of `Verse` (`none` = key absent).
* External collaborators are parameters: `nltk.word_tokenize` is a
  `String → List String` argument, the English stopword list a `List String`
  argument, and the pandas GloVe table a `List (String × List Rat)` association
  list looked up by exact match (`.loc[word]`).
* `Yahweh`/`God` handling uses explicit `List Char` models of Python's
  substring test (the Python `in` operator) and `str.replace` (all non-overlapping
  occurrences, left to right).
* `numpy` vectors are `List Rat` (`np.append` = concatenation, `np.zeros(n)` =
  `List.replicate n 0`); `sklearn.metrics.pairwise.cosine_similarity` is the
  real-valued matrix `dot v w / (‖v‖ * ‖w‖)`, zero when a vector is zero (sklearn
  leaves all-zero rows at zero when normalising).
* `np.argsort` is modelled as the stable ascending argsort: indices ordered by
  value, ties in ascending index order, expressed by the lexicographic
  (value, index) comparison.  numpy documents its default sort as unstable for
  longer inputs, so stability is a modelling choice: program-level theorems
  only use tie-order-independent consequences (membership, length, values),
  except where a concrete run stays below the insertion-sort threshold where
  numpy is stable (the two-entry rows of the concrete corpora).
* In `get_similar_values`, a reference absent from the corpus leaves
  `proper_index = None`; numpy then treats `self.sim_matrix[None]` as newaxis
  indexing (shape `(1, n, n)`), the `[1:]` slice of that length-1 axis is empty,
  so `argsort`/`reversed` produce nothing and the function returns `[]`.  The
  `none` branch below returns `[]` accordingly.
-/

/-- MAX_LEN = 24 (similarity.py line 22). -/
def MAX_LEN : Nat := 24

/-- One verse record: `verse` (reference string), `text` (raw text), plus the keys
added by preprocessing (`tokenized_text`) and vectorisation (`vector`). -/
structure Verse where
  verse : String
  text : String
  tokenized_text : Option (List String) := none
  vector : Option (List Rat) := none
deriving DecidableEq, Repr, Inhabited

/-- Python `string.punctuation`, the `self.exclude` set. -/
def pyPunctuation : List Char :=
  ['!', '"', '#', '$', '%', '&', '\u0027', '(', ')', '*', '+', ',', '-', '.',
   '/', ':', ';', '<', '=', '>', '?', '@', '[', '\\', ']', '^', '_', '\u0060',
   '\u007b', '|', '\u007d', '~']

/-- Model of the punctuation strip: join of the characters of the verse text
that are not in `self.exclude`. -/
def stripPunctuation (exclude : List Char) (s : String) : String :=
  String.mk (s.toList.filter (fun c => !(exclude.contains c)))

/-- Does `s` start with `pat`? (helper for the Python substring operators). -/
def pyStartsWith : List Char → List Char → Bool
  | _, [] => true
  | [], _ :: _ => false
  | c :: s, p :: ps => c == p && pyStartsWith s ps

/-- Python `pat in s` (substring containment). -/
def pyContains : List Char → List Char → Bool
  | [], pat => pat.isEmpty
  | c :: rest, pat => pyStartsWith (c :: rest) pat || pyContains rest pat

/-- Fuel-driven scanner behind `pyReplace` (the fuel only certifies termination:
one unit per character of the remaining input always suffices, since a match
consumes at least one character). -/
def pyReplaceGo (pat rep : List Char) : Nat → List Char → List Char
  | 0, s => s
  | _ + 1, [] => []
  | fuel + 1, c :: rest =>
    if pyStartsWith (c :: rest) pat && !pat.isEmpty then
      rep ++ pyReplaceGo pat rep fuel ((c :: rest).drop pat.length)
    else
      c :: pyReplaceGo pat rep fuel rest

/-- Python `s.replace(pat, rep)`: replace all non-overlapping occurrences of a
non-empty `pat`, scanning left to right. -/
def pyReplace (pat rep s : List Char) : List Char :=
  pyReplaceGo pat rep s.length s

/-- The token list for "Yahweh". -/
def yahwehChars : List Char := ['Y', 'a', 'h', 'w', 'e', 'h']

/-- The token list for "God". -/
def godChars : List Char := ['G', 'o', 'd']

/-- Body of the inner loop of `tokenize_data` for one token `val`:
drop it if it is a stopword, otherwise substitute `Yahweh → God` when `val`
contains "Yahweh" (`none` = token dropped). -/
def processToken (stop : List String) (val : String) : Option String :=
  if val ∈ stop then none
  else some (if pyContains val.toList yahwehChars then
               String.mk (pyReplace yahwehChars godChars val.toList)
             else val)

/-- `tokenize_data` (similarity.py lines 77-97): per verse, strip punctuation from
`text`, tokenize (external `word_tokenize`, passed as `wordTokenize`), filter
stopwords, apply the Yahweh substitution, and store the result under
`tokenized_text`.  The `text` field is not modified. -/
def tokenize_data (wordTokenize : String → List String) (stop : List String)
    (exclude : List Char) (verse_data : List Verse) : List Verse :=
  verse_data.map (fun v =>
    let final_text := (wordTokenize (stripPunctuation exclude v.text)).filterMap
      (processToken stop)
    { v with tokenized_text := some final_text })

/-- `self.glove_words.loc[word]`: exact-match lookup in the GloVe table. -/
def gloveLookup (glove : List (String × List Rat)) (word : String) :
    Option (List Rat) :=
  (glove.find? (fun p => p.1 == word)).map (fun p => p.2)

/-- `get_glove_vector` (similarity.py lines 133-150): return the row for `word`,
or raise a `ValueError` whose message is the word formatted into
"... was not found in the glove embeddings." (modelled as `Except.error`
carrying the formatted message). -/
def get_glove_vector (glove : List (String × List Rat)) (word : String) :
    Except String (List Rat) :=
  match gloveLookup glove word with
  | some row => Except.ok row
  | none => Except.error (word ++ " was not found in the glove embeddings.")

/-- One iteration of the `convert_to_glove_vectors` loop body:
`try: append(get_glove_vector(word)) except ValueError: append(np.zeros(200))`. -/
def tokenContribution (glove : List (String × List Rat)) (word : String) :
    List Rat :=
  match get_glove_vector glove word with
  | Except.ok v => v
  | Except.error _ => List.replicate 200 0

/-- The per-verse vector of `convert_to_glove_vectors` (lines 118-128): append the
contribution of the first `MAX_LEN` tokens, then right-pad with zeros when the
result is shorter than `MAX_LEN * 200`. -/
def build_vector (glove : List (String × List Rat)) (tokens : List String) :
    List Rat :=
  let core := ((tokens.take MAX_LEN).map (tokenContribution glove)).flatten
  if core.length < MAX_LEN * 200 then
    core ++ List.replicate (MAX_LEN * 200 - core.length) 0
  else core

/-- `convert_to_glove_vectors` (similarity.py lines 99-131): store the vector of
each verse under `vector`; other fields unchanged. -/
def convert_to_glove_vectors (glove : List (String × List Rat))
    (verse_data : List Verse) : List Verse :=
  verse_data.map (fun v =>
    { v with vector := some (build_vector glove (v.tokenized_text.getD [])) })

/-- Dot product of rational vectors (`numpy` semantics on equal-length inputs). -/
def dotQ (v w : List Rat) : Rat := (List.zipWith (fun a b => a * b) v w).sum

/-- One entry of `sklearn.metrics.pairwise.cosine_similarity`:
`dot(v,w) / (‖v‖·‖w‖)`, and `0` when either vector is all zeros (sklearn's
`normalize` leaves zero rows at zero). -/
noncomputable def cosSim (v w : List Rat) : ℝ :=
  if dotQ v v = 0 ∨ dotQ w w = 0 then 0
  else ((dotQ v w : Rat) : ℝ) /
    (Real.sqrt ((dotQ v v : Rat) : ℝ) * Real.sqrt ((dotQ w w : Rat) : ℝ))

/-- `cosine_similarity(vectors)`: the full pairwise matrix. -/
noncomputable def cosine_similarity (vs : List (List Rat)) : List (List ℝ) :=
  vs.map (fun v => vs.map (fun w => cosSim v w))

/-- The queryable state of a `Similarity` object: working copy `verse_data`,
display copy `bible_verses`, and `sim_matrix`.  The entry type is a parameter so
that concrete rational matrices can be compared with the real-valued built one. -/
structure SimState (α : Type) where
  verse_data : List Verse
  bible_verses : List Verse
  sim_matrix : List (List α)

/-- The order `np.argsort` sorts the (index, value) pairs by: value ascending,
with ties in ascending index order (stability of the sort, made explicit as a
lexicographic comparison). -/
def enumLex {α : Type} [LinearOrder α] (a b : Nat × α) : Prop :=
  a.2 < b.2 ∨ (a.2 = b.2 ∧ a.1 ≤ b.1)

instance {α : Type} [LinearOrder α] : DecidableRel (@enumLex α _) := fun a b =>
  inferInstanceAs (Decidable (a.2 < b.2 ∨ (a.2 = b.2 ∧ a.1 ≤ b.1)))

instance {α : Type} [LinearOrder α] : IsTotal (Nat × α) enumLex where
  total a b := by
    rcases lt_trichotomy a.2 b.2 with h | h | h
    · exact Or.inl (Or.inl h)
    · rcases Nat.le_total a.1 b.1 with h1 | h1
      · exact Or.inl (Or.inr ⟨h, h1⟩)
      · exact Or.inr (Or.inr ⟨h.symm, h1⟩)
    · exact Or.inr (Or.inl h)

instance {α : Type} [LinearOrder α] : IsTrans (Nat × α) enumLex where
  trans a b c hab hbc := by
    rcases hab with hab | ⟨hab, hab1⟩ <;> rcases hbc with hbc | ⟨hbc, hbc1⟩
    · exact Or.inl (hab.trans hbc)
    · exact Or.inl (hbc ▸ hab)
    · exact Or.inl (hab ▸ hbc)
    · exact Or.inr ⟨hab.trans hbc, hab1.trans hbc1⟩

instance {α : Type} [LinearOrder α] : IsAntisymm (Nat × α) enumLex where
  antisymm a b hab hba := by
    rcases hab with hab | ⟨hab, hab1⟩ <;> rcases hba with hba | ⟨hba, hba1⟩
    · exact absurd (hab.trans hba) (lt_irrefl _)
    · exact absurd hab (hba ▸ lt_irrefl _)
    · exact absurd hba (hab ▸ lt_irrefl _)
    · exact Prod.ext (Nat.le_antisymm hab1 hba1) hab

/-- `np.argsort`: indices that sort the list ascending, stable (ties keep
ascending index order).  Modelled as an insertion sort of the (index, value)
pairs by `enumLex` — for a total, transitive, antisymmetric order the sorted
permutation is unique, so any stable ascending sort produces this list. -/
def npArgsort {α : Type} [LinearOrder α] (l : List α) : List Nat :=
  (List.insertionSort enumLex l.enum).map (fun p => p.1)

/-- `get_similar_values` (similarity.py lines 152-184): find the first index whose
`verse` field equals the query; slice off the FIRST column of that row
(`self.sim_matrix[proper_index][1:]`); rank by descending similarity
(`list(reversed(np.argsort(sim_text)))[:total_values]`); return the
`bible_verses` display records at those indices, unshifted.  When the reference
is absent, `proper_index` is `None` and numpy's newaxis indexing makes the
sliced row empty, so the result is `[]` (see the header comment). -/
def get_similar_values {α : Type} [LinearOrder α] (st : SimState α)
    (verse : String) (total_values : Nat) : List Verse :=
  match st.verse_data.findIdx? (fun verse_text => verse_text.verse == verse) with
  | none => []
  | some proper_index =>
    let sim_text := (st.sim_matrix.getD proper_index []).drop 1
    let final_indices := ((npArgsort sim_text).reverse).take total_values
    final_indices.map (fun i => st.bible_verses.getD i default)

/-- `Similarity.__init__` (lines 63-75), after the external file loading: snapshot
the display copy (`copy.deepcopy`), tokenize, vectorise, and build the cosine
matrix from the verse vectors. -/
noncomputable def similarityInit (wordTokenize : String → List String)
    (stop : List String) (glove : List (String × List Rat))
    (verse_data : List Verse) : SimState ℝ :=
  let bible_verses := verse_data
  let vd := convert_to_glove_vectors glove
    (tokenize_data wordTokenize stop pyPunctuation verse_data)
  { verse_data := vd, bible_verses := bible_verses,
    sim_matrix := cosine_similarity (vd.map (fun v => v.vector.getD [])) }

/-- Entrywise `Rat.cast` of a matrix row into `ℝ`. -/
noncomputable def castRow (row : List Rat) : List ℝ := row.map (fun q : Rat => (q : ℝ))

/-- Cast a rational-matrix state to a real-matrix state (entrywise `Rat.cast`). -/
noncomputable def castState (st : SimState Rat) : SimState ℝ :=
  { st with sim_matrix := st.sim_matrix.map castRow }

/-- Whitespace tokenizer used to instantiate the external `word_tokenize`
parameter on the concrete corpora below (whose texts are single plain words, on
which any word-boundary tokenizer agrees). -/
def splitOnSpace : List Char → List (List Char)
  | [] => [[]]
  | c :: rest =>
    let r := splitOnSpace rest
    if c = ' ' then [] :: r else (c :: r.headD []) :: r.tail

/-- String-level wrapper for `splitOnSpace`, dropping empty words. -/
def wsTokenize (s : String) : List String :=
  ((splitOnSpace s.toList).filter (fun w => !w.isEmpty)).map String.mk

/-- Concrete corpus A: three one-word verses with pairwise distinct tokens. -/
def versesA : List Verse :=
  [⟨"Genesis 1:1", "alpha", none, none⟩,
   ⟨"Genesis 1:2", "beta", none, none⟩,
   ⟨"Genesis 1:3", "gamma", none, none⟩]

/-- A few English stopwords (instantiation of the external stopword list). -/
def stopListA : List String := ["i", "me", "my", "the", "a", "is"]

/-- GloVe row for "alpha": the first standard basis vector of dimension 200. -/
def gloveRowA0 : List Rat := 1 :: List.replicate 199 0

/-- GloVe row for "beta": the second standard basis vector of dimension 200. -/
def gloveRowA1 : List Rat := 0 :: 1 :: List.replicate 198 0

/-- GloVe row for "gamma": the third standard basis vector of dimension 200. -/
def gloveRowA2 : List Rat := 0 :: 0 :: 1 :: List.replicate 197 0

/-- Concrete GloVe table for corpus A (orthonormal rows). -/
def gloveA : List (String × List Rat) :=
  [("alpha", gloveRowA0), ("beta", gloveRowA1), ("gamma", gloveRowA2)]

/-- The rational-valued state corpus A builds to: its cosine matrix is the 3×3
identity (proved below), everything else is the build pipeline verbatim. -/
def stateAQ : SimState Rat :=
  { verse_data := convert_to_glove_vectors gloveA
      (tokenize_data wsTokenize stopListA pyPunctuation versesA),
    bible_verses := versesA,
    sim_matrix := [[1, 0, 0], [0, 1, 0], [0, 0, 1]] }

/-- Concrete corpus B: three verses with identical one-word texts. -/
def versesB : List Verse :=
  [⟨"Genesis 1:1", "alpha", none, none⟩,
   ⟨"Genesis 1:2", "alpha", none, none⟩,
   ⟨"Genesis 1:3", "alpha", none, none⟩]

/-- Concrete GloVe table for corpus B. -/
def gloveB : List (String × List Rat) := [("alpha", gloveRowA0)]

/-- The rational-valued state corpus B builds to: all three vectors are equal and
non-zero, so the cosine matrix is all ones (proved below). -/
def stateBQ : SimState Rat :=
  { verse_data := convert_to_glove_vectors gloveB
      (tokenize_data wsTokenize stopListA pyPunctuation versesB),
    bible_verses := versesB,
    sim_matrix := [[1, 1, 1], [1, 1, 1], [1, 1, 1]] }

-- ===================================================================
-- Infrastructure lemmas
-- ===================================================================

set_option maxRecDepth 4000

theorem dotQ_nil_right (v : List Rat) : dotQ v [] = 0 := by
  cases v <;> simp [dotQ]

theorem dotQ_cons (a b : Rat) (v w : List Rat) :
    dotQ (a :: v) (b :: w) = a * b + dotQ v w := by
  simp [dotQ]

theorem dotQ_replicate_zero_left :
    ∀ (n : Nat) (w : List Rat), dotQ (List.replicate n 0) w = 0
  | 0, _ => by simp [dotQ]
  | _ + 1, [] => by simp [dotQ]
  | n + 1, b :: w => by
    rw [List.replicate_succ, dotQ_cons, dotQ_replicate_zero_left n w]
    ring

theorem dotQ_comm (v : List Rat) : ∀ w : List Rat, dotQ v w = dotQ w v := by
  induction v with
  | nil => intro w; cases w <;> simp [dotQ]
  | cons a v ih =>
    intro w
    cases w with
    | nil => simp [dotQ]
    | cons b w => rw [dotQ_cons, dotQ_cons, ih w, mul_comm]

theorem cosSim_comm (v w : List Rat) : cosSim v w = cosSim w v := by
  rw [cosSim, cosSim, dotQ_comm v w]
  by_cases h : dotQ v v = 0 ∨ dotQ w w = 0
  · rw [if_pos h, if_pos h.symm]
  · rw [if_neg h, if_neg (fun hc => h hc.symm), mul_comm]

/-- When both vectors have unit self-dot-product, the cosine entry is just the
(cast) dot product. -/
theorem cosSim_of_unit {v w : List Rat} (hv : dotQ v v = 1) (hw : dotQ w w = 1) :
    cosSim v w = ((dotQ v w : Rat) : ℝ) := by
  rw [cosSim, hv, hw, if_neg (by norm_num)]
  norm_num

theorem enumFrom_map_prod (f : Rat → ℝ) :
    ∀ (n : Nat) (l : List Rat),
      (l.map f).enumFrom n = (l.enumFrom n).map (Prod.map id f)
  | _, [] => by simp
  | n, a :: l => by
    simp only [List.map_cons, List.enumFrom_cons, Prod.map_apply, id_eq]
    exact congrArg _ (enumFrom_map_prod f (n + 1) l)

theorem enum_map_prod (f : Rat → ℝ) (l : List Rat) :
    (l.map f).enum = l.enum.map (Prod.map id f) :=
  enumFrom_map_prod f 0 l

/-- Casting the values does not change the argsort: `Rat.cast` into `ℝ` is a
strictly monotone injection, so all comparisons agree. -/
theorem npArgsort_map_cast (l : List Rat) :
    npArgsort (castRow l) = npArgsort l := by
  rw [npArgsort, npArgsort, castRow, enum_map_prod]
  rw [← List.map_insertionSort (r := @enumLex Rat _) (s := @enumLex ℝ _)
        (Prod.map id (fun q : Rat => (q : ℝ))) l.enum]
  · simp [Function.comp_def]
  · intro a _ b _
    simp [enumLex, Prod.map_fst, Prod.map_snd]

theorem getD_map_cast (M : List (List Rat)) (p : Nat) :
    (M.map castRow).getD p [] = castRow (M.getD p []) := by
  induction M generalizing p with
  | nil => simp [castRow]
  | cons r M ih =>
    cases p with
    | zero => simp
    | succ p => simpa using ih p

theorem castState_verse_data (st : SimState Rat) :
    (castState st).verse_data = st.verse_data := rfl

theorem castState_bible_verses (st : SimState Rat) :
    (castState st).bible_verses = st.bible_verses := rfl

/-- The query commutes with casting the matrix entries from `Rat` to `ℝ`:
ranking only compares entries, and the cast preserves all comparisons. -/
theorem get_similar_values_castState (st : SimState Rat) (verse : String)
    (k : Nat) :
    get_similar_values (castState st) verse k = get_similar_values st verse k := by
  cases h : st.verse_data.findIdx? (fun verse_text => verse_text.verse == verse) with
  | none => simp only [get_similar_values, castState_verse_data, h]
  | some p =>
    simp only [get_similar_values, castState_verse_data, h]
    have hm : (castState st).sim_matrix.getD p [] =
        castRow (st.sim_matrix.getD p []) := getD_map_cast _ _
    have hdrop : (castRow (st.sim_matrix.getD p [])).drop 1 =
        castRow ((st.sim_matrix.getD p []).drop 1) := by
      rw [castRow, castRow, List.map_drop]
    rw [hm, castState_bible_verses, hdrop, npArgsort_map_cast]

theorem npArgsort_perm {α : Type} [LinearOrder α] (l : List α) :
    (npArgsort l).Perm (List.range l.length) := by
  rw [npArgsort]
  have h1 := (List.perm_insertionSort (@enumLex α _) l.enum).map
    (fun p : Nat × α => p.1)
  have h2 : l.enum.map (fun p : Nat × α => p.1) = List.range l.length := by
    have hfst : (fun p : Nat × α => p.1) = (Prod.fst : Nat × α → Nat) := rfl
    rw [hfst, List.enum_eq_enumFrom, List.enumFrom_map_fst, List.range_eq_range']
  exact h2 ▸ h1

theorem npArgsort_length {α : Type} [LinearOrder α] (l : List α) :
    (npArgsort l).length = l.length := by
  simpa using (npArgsort_perm l).length_eq

theorem mem_npArgsort {α : Type} [LinearOrder α] {l : List α} {i : Nat} :
    i ∈ npArgsort l ↔ i < l.length := by
  rw [(npArgsort_perm l).mem_iff, List.mem_range]

theorem npArgsort_nodup {α : Type} [LinearOrder α] (l : List α) :
    (npArgsort l).Nodup := ((npArgsort_perm l).nodup_iff).mpr (List.nodup_range _)

/-- The argsort output is sorted: along it, values are non-decreasing and equal
values keep ascending index order (stability). -/
theorem npArgsort_pairwise {α : Type} [LinearOrder α] (l : List α) (d : α) :
    (npArgsort l).Pairwise
      (fun i j => l.getD i d < l.getD j d ∨ (l.getD i d = l.getD j d ∧ i ≤ j)) := by
  rw [npArgsort, List.pairwise_map]
  have hs : (List.insertionSort enumLex l.enum).Pairwise enumLex :=
    List.sorted_insertionSort enumLex l.enum
  refine hs.imp_of_mem (fun {a b} ha hb hab => ?_)
  have ha2 : l[a.1]? = some a.2 :=
    List.mem_enum_iff_getElem?.mp ((List.mem_insertionSort enumLex).mp ha)
  have hb2 : l[b.1]? = some b.2 :=
    List.mem_enum_iff_getElem?.mp ((List.mem_insertionSort enumLex).mp hb)
  have ha3 : l.getD a.1 d = a.2 := by rw [List.getD_eq_getElem?_getD, ha2]; rfl
  have hb3 : l.getD b.1 d = b.2 := by rw [List.getD_eq_getElem?_getD, hb2]; rfl
  rw [ha3, hb3]
  exact hab

/-- The ranked index list of the query (`take` of the reversed argsort) in the
stable-sort model: values non-increasing, ties in descending index order.  The
tie clause is a property of the stable `npArgsort` model only; program-level
claims use just its tie-order-independent consequences. -/
theorem final_indices_pairwise {α : Type} [LinearOrder α] (l : List α) (k : Nat)
    (d : α) :
    (((npArgsort l).reverse).take k).Pairwise
      (fun i j => l.getD j d < l.getD i d ∨ (l.getD i d = l.getD j d ∧ j < i)) := by
  have hpn : (npArgsort l).Pairwise
      (fun i j => (l.getD i d < l.getD j d ∨ (l.getD i d = l.getD j d ∧ i ≤ j)) ∧
        i ≠ j) :=
    (npArgsort_pairwise l d).and (npArgsort_nodup l)
  have hrev : ((npArgsort l).reverse).Pairwise
      (fun i j => (l.getD j d < l.getD i d ∨ (l.getD j d = l.getD i d ∧ j ≤ i)) ∧
        j ≠ i) := List.pairwise_reverse.mpr hpn
  refine ((hrev.sublist (List.take_sublist k _)).imp ?_)
  rintro i j ⟨h | ⟨heq, hle⟩, hne⟩
  · exact Or.inl h
  · exact Or.inr ⟨heq.symm, lt_of_le_of_ne hle hne⟩

-- ===================================================================
-- Concrete corpora: reachability of the rational states
-- ===================================================================

theorem build_vector_A0 :
    build_vector gloveA ["alpha"] = 1 :: List.replicate 4799 (0 : Rat) := by
  rw [build_vector]
  have h1 : (["alpha"].take MAX_LEN).map (tokenContribution gloveA) =
      [gloveRowA0] := by
    simp [MAX_LEN, tokenContribution, get_glove_vector, gloveLookup, gloveA]
  have h2 : ([gloveRowA0] : List (List Rat)).flatten = gloveRowA0 := by simp
  have h3 : gloveRowA0.length = 200 := by simp [gloveRowA0]
  rw [h1, h2, h3, if_pos (by norm_num [MAX_LEN])]
  rw [gloveRowA0, List.cons_append, ← List.replicate_add]
  norm_num [MAX_LEN]

theorem build_vector_A1 :
    build_vector gloveA ["beta"] = 0 :: 1 :: List.replicate 4798 (0 : Rat) := by
  rw [build_vector]
  have h1 : (["beta"].take MAX_LEN).map (tokenContribution gloveA) =
      [gloveRowA1] := by
    simp [MAX_LEN, tokenContribution, get_glove_vector, gloveLookup, gloveA]
  have h2 : ([gloveRowA1] : List (List Rat)).flatten = gloveRowA1 := by simp
  have h3 : gloveRowA1.length = 200 := by simp [gloveRowA1]
  rw [h1, h2, h3, if_pos (by norm_num [MAX_LEN])]
  rw [gloveRowA1, List.cons_append, List.cons_append, ← List.replicate_add]
  norm_num [MAX_LEN]

theorem build_vector_A2 :
    build_vector gloveA ["gamma"] = 0 :: 0 :: 1 :: List.replicate 4797 (0 : Rat) := by
  rw [build_vector]
  have h1 : (["gamma"].take MAX_LEN).map (tokenContribution gloveA) =
      [gloveRowA2] := by
    simp [MAX_LEN, tokenContribution, get_glove_vector, gloveLookup, gloveA]
  have h2 : ([gloveRowA2] : List (List Rat)).flatten = gloveRowA2 := by simp
  have h3 : gloveRowA2.length = 200 := by simp [gloveRowA2]
  rw [h1, h2, h3, if_pos (by norm_num [MAX_LEN])]
  rw [gloveRowA2, List.cons_append, List.cons_append, List.cons_append,
    ← List.replicate_add]
  norm_num [MAX_LEN]

theorem build_vector_B0 :
    build_vector gloveB ["alpha"] = 1 :: List.replicate 4799 (0 : Rat) := by
  rw [build_vector]
  have h1 : (["alpha"].take MAX_LEN).map (tokenContribution gloveB) =
      [gloveRowA0] := by
    simp [MAX_LEN, tokenContribution, get_glove_vector, gloveLookup, gloveB]
  have h2 : ([gloveRowA0] : List (List Rat)).flatten = gloveRowA0 := by simp
  have h3 : gloveRowA0.length = 200 := by simp [gloveRowA0]
  rw [h1, h2, h3, if_pos (by norm_num [MAX_LEN])]
  rw [gloveRowA0, List.cons_append, ← List.replicate_add]
  norm_num [MAX_LEN]

theorem dotQ_replicate_zero_right (n : Nat) (w : List Rat) :
    dotQ w (List.replicate n 0) = 0 := by
  rw [dotQ_comm]
  exact dotQ_replicate_zero_left n w

theorem dot_e00 :
    dotQ (1 :: List.replicate 4799 (0 : Rat)) (1 :: List.replicate 4799 0) = 1 := by
  rw [dotQ_cons, dotQ_replicate_zero_left]; norm_num

theorem dot_e11 :
    dotQ (0 :: 1 :: List.replicate 4798 (0 : Rat))
      (0 :: 1 :: List.replicate 4798 0) = 1 := by
  rw [dotQ_cons, dotQ_cons, dotQ_replicate_zero_left]; norm_num

theorem dot_e22 :
    dotQ (0 :: 0 :: 1 :: List.replicate 4797 (0 : Rat))
      (0 :: 0 :: 1 :: List.replicate 4797 0) = 1 := by
  rw [dotQ_cons, dotQ_cons, dotQ_cons, dotQ_replicate_zero_left]; norm_num

theorem dot_e01 :
    dotQ (1 :: List.replicate 4799 (0 : Rat))
      (0 :: 1 :: List.replicate 4798 0) = 0 := by
  rw [dotQ_cons, dotQ_replicate_zero_left]; norm_num

theorem dot_e02 :
    dotQ (1 :: List.replicate 4799 (0 : Rat))
      (0 :: 0 :: 1 :: List.replicate 4797 0) = 0 := by
  rw [dotQ_cons, dotQ_replicate_zero_left]; norm_num

theorem dot_e12 :
    dotQ (0 :: 1 :: List.replicate 4798 (0 : Rat))
      (0 :: 0 :: 1 :: List.replicate 4797 0) = 0 := by
  rw [dotQ_cons, dotQ_cons, dotQ_replicate_zero_left]; norm_num

theorem dot_e10 :
    dotQ (0 :: 1 :: List.replicate 4798 (0 : Rat))
      (1 :: List.replicate 4799 0) = 0 := by
  rw [dotQ_comm]; exact dot_e01

theorem dot_e20 :
    dotQ (0 :: 0 :: 1 :: List.replicate 4797 (0 : Rat))
      (1 :: List.replicate 4799 0) = 0 := by
  rw [dotQ_comm]; exact dot_e02

theorem dot_e21 :
    dotQ (0 :: 0 :: 1 :: List.replicate 4797 (0 : Rat))
      (0 :: 1 :: List.replicate 4798 0) = 0 := by
  rw [dotQ_comm]; exact dot_e12

/-- The verse vectors corpus A builds (working copy, `vector` field). -/
theorem vectors_A :
    (convert_to_glove_vectors gloveA
        (tokenize_data wsTokenize stopListA pyPunctuation versesA)).map
      (fun v => v.vector.getD []) =
    [build_vector gloveA ["alpha"], build_vector gloveA ["beta"],
     build_vector gloveA ["gamma"]] := rfl

/-- The cosine matrix of corpus A is the identity matrix (orthonormal vectors). -/
theorem cosine_matrix_A :
    cosine_similarity
      ((convert_to_glove_vectors gloveA
          (tokenize_data wsTokenize stopListA pyPunctuation versesA)).map
        (fun v => v.vector.getD [])) = stateAQ.sim_matrix.map castRow := by
  rw [vectors_A, build_vector_A0, build_vector_A1, build_vector_A2,
    cosine_similarity]
  simp only [List.map_cons, List.map_nil]
  rw [cosSim_of_unit dot_e00 dot_e00, cosSim_of_unit dot_e00 dot_e11,
    cosSim_of_unit dot_e00 dot_e22, cosSim_of_unit dot_e11 dot_e00,
    cosSim_of_unit dot_e11 dot_e11, cosSim_of_unit dot_e11 dot_e22,
    cosSim_of_unit dot_e22 dot_e00, cosSim_of_unit dot_e22 dot_e11,
    cosSim_of_unit dot_e22 dot_e22]
  rw [dot_e00, dot_e01, dot_e02, dot_e10, dot_e11, dot_e12, dot_e20, dot_e21,
    dot_e22]
  simp [stateAQ, castRow]

/-- The verse vectors corpus B builds. -/
theorem vectors_B :
    (convert_to_glove_vectors gloveB
        (tokenize_data wsTokenize stopListA pyPunctuation versesB)).map
      (fun v => v.vector.getD []) =
    [build_vector gloveB ["alpha"], build_vector gloveB ["alpha"],
     build_vector gloveB ["alpha"]] := rfl

/-- The cosine matrix of corpus B is all ones (equal non-zero vectors). -/
theorem cosine_matrix_B :
    cosine_similarity
      ((convert_to_glove_vectors gloveB
          (tokenize_data wsTokenize stopListA pyPunctuation versesB)).map
        (fun v => v.vector.getD [])) = stateBQ.sim_matrix.map castRow := by
  rw [vectors_B, build_vector_B0, cosine_similarity]
  simp only [List.map_cons, List.map_nil]
  rw [cosSim_of_unit dot_e00 dot_e00, dot_e00]
  simp [stateBQ, castRow]

/-- Corpus A builds exactly to `stateAQ` with its matrix cast into `ℝ`. -/
theorem simInit_A :
    similarityInit wsTokenize stopListA gloveA versesA = castState stateAQ := by
  rw [similarityInit, castState]
  congr 1
  exact cosine_matrix_A

/-- Corpus B builds exactly to `stateBQ` with its matrix cast into `ℝ`. -/
theorem simInit_B :
    similarityInit wsTokenize stopListA gloveB versesB = castState stateBQ := by
  rw [similarityInit, castState]
  congr 1
  exact cosine_matrix_B

-- ===================================================================
-- Helper lemmas for the claims
-- ===================================================================

theorem castState_sim_matrix (st : SimState Rat) :
    (castState st).sim_matrix = st.sim_matrix.map castRow := rfl

theorem getD_map_of_lt {β γ : Type} (f : β → γ) (l : List β) (a : Nat) (d : γ)
    (ha : a < l.length) : (l.map f).getD a d = f l[a] := by
  induction l generalizing a with
  | nil => simp at ha
  | cons x xs ih =>
    cases a with
    | zero => simp
    | succ a =>
      simp only [List.map_cons, List.getD_cons_succ, List.getElem_cons_succ]
      exact ih a (by simpa using ha)

theorem tokenContribution_length (glove : List (String × List Rat))
    (hg : ∀ pr ∈ glove, pr.2.length = 200) (w : String) :
    (tokenContribution glove w).length = 200 := by
  cases h : gloveLookup glove w with
  | none => simp [tokenContribution, get_glove_vector, h]
  | some row =>
    have hlen : row.length = 200 := by
      rw [gloveLookup] at h
      rcases Option.map_eq_some'.mp h with ⟨pr, hpr, hrow⟩
      exact hrow ▸ hg pr (List.mem_of_find?_eq_some hpr)
    simp [tokenContribution, get_glove_vector, h, hlen]

theorem flatten_contribution_length (glove : List (String × List Rat))
    (hg : ∀ pr ∈ glove, pr.2.length = 200) :
    ∀ toks : List String,
      ((toks.map (tokenContribution glove)).flatten).length = 200 * toks.length := by
  intro toks
  induction toks with
  | nil => simp
  | cons w ws ih =>
    simp only [List.map_cons, List.flatten_cons, List.length_append, ih,
      tokenContribution_length glove hg w, List.length_cons]
    ring

-- ===================================================================
-- The claims
-- ===================================================================

/-- C1: the spec claims `top_k(id, k)` never includes the queried passage itself.
The code drops the FIRST column of the similarity row (`[1:]`) instead of the
queried passage's own column and then indexes the display list with the
unshifted positions, so the queried passage CAN be returned.  Concretely: corpus
A has three verses with orthonormal vectors, so its cosine matrix is the
identity; querying "Genesis 1:1" (corpus index 0) returns the display record of
"Genesis 1:1" itself among the results. -/
theorem c1_query_returns_queried_passage :
    (similarityInit wsTokenize stopListA gloveA versesA).verse_data.findIdx?
        (fun verse_text => verse_text.verse == "Genesis 1:1") = some 0 ∧
    (⟨"Genesis 1:1", "alpha", none, none⟩ : Verse) ∈
      get_similar_values (similarityInit wsTokenize stopListA gloveA versesA)
        "Genesis 1:1" 10 := by
  rw [simInit_A]
  constructor
  · rw [castState_verse_data]; decide
  · rw [get_similar_values_castState]; decide

/-- C2: for every GloVe table with 200-dimensional rows and every token list, the
built vector has length exactly `MAX_LEN * 200 = 4800`, and tokens beyond
`MAX_LEN` are discarded (the vector only depends on the first `MAX_LEN` tokens,
in order); shorter token lists are right-padded with zeros by the `if` branch of
`build_vector`. -/
theorem c2_vector_length (glove : List (String × List Rat)) (tokens : List String)
    (hg : ∀ pr ∈ glove, pr.2.length = 200) :
    (build_vector glove tokens).length = MAX_LEN * 200 ∧
    build_vector glove tokens = build_vector glove (tokens.take MAX_LEN) := by
  constructor
  · have hcore : (((tokens.take MAX_LEN).map (tokenContribution glove)).flatten).length =
        200 * min MAX_LEN tokens.length := by
      rw [flatten_contribution_length glove hg, List.length_take]
    have hmax : MAX_LEN = 24 := rfl
    rw [build_vector]
    split
    · rw [List.length_append, List.length_replicate]
      rename_i hlt
      omega
    · rename_i hge
      rw [hcore] at hge ⊢
      rw [hmax] at hge ⊢
      omega
  · rw [build_vector, build_vector, List.take_take, Nat.min_self]

/-- C2 witness: a concrete 200-dimensional table and token list. -/
theorem c2_vector_length_witness :
    (∀ pr ∈ gloveA, pr.2.length = 200) ∧
    ((build_vector gloveA ["alpha", "beta"]).length = MAX_LEN * 200 ∧
      build_vector gloveA ["alpha", "beta"] =
        build_vector gloveA (["alpha", "beta"].take MAX_LEN)) :=
  ⟨by decide, c2_vector_length gloveA ["alpha", "beta"] (by decide)⟩

/-- C3 counterexample: the spec claims a query for an absent reference returns an
`UnknownPassage` error.  In the code `proper_index` stays `None`; numpy newaxis
indexing then yields an empty sliced row and the function returns the ordinary
empty result list — no error is raised and no `UnknownPassage` value exists
anywhere in the code.  Concretely on the reachable corpus-A state: -/
theorem c3_unknown_passage_counterexample :
    (∀ v ∈ (similarityInit wsTokenize stopListA gloveA versesA).verse_data,
        v.verse ≠ "Obadiah 1:1") ∧
    get_similar_values (similarityInit wsTokenize stopListA gloveA versesA)
        "Obadiah 1:1" 10 = [] := by
  rw [simInit_A]
  constructor
  · rw [castState_verse_data]; decide
  · rw [get_similar_values_castState]; decide

/-- C3 (amended): for every state and every reference absent from the working
collection, `get_similar_values` returns the empty list (a normal result, not an
error and not an index failure). -/
theorem c3_unknown_passage_returns_empty {α : Type} [LinearOrder α]
    (st : SimState α) (verse : String) (k : Nat)
    (h : st.verse_data.findIdx? (fun verse_text => verse_text.verse == verse) =
      none) :
    get_similar_values st verse k = [] := by
  simp only [get_similar_values, h]

/-- C3 witness: the amended claim at a concrete state and absent reference. -/
theorem c3_unknown_passage_returns_empty_witness :
    stateAQ.verse_data.findIdx?
        (fun verse_text => verse_text.verse == "Obadiah 1:1") = none ∧
    get_similar_values stateAQ "Obadiah 1:1" 10 = [] :=
  ⟨by decide, c3_unknown_passage_returns_empty stateAQ "Obadiah 1:1" 10 (by decide)⟩

/-- C4 counterexample: the spec claims equal-similarity results appear in
ascending corpus order.  On corpus B all similarities are 1 (three identical
verses), the queried row slice is `[1, 1]`, yet the result lists the record of
"Genesis 1:2" (position 1) BEFORE "Genesis 1:1" (position 0): `np.argsort` is
ascending and stable, and `reversed(...)` turns ties into descending position
order. -/
theorem c4_tie_break_counterexample :
    ((similarityInit wsTokenize stopListA gloveB versesB).sim_matrix.getD 0 []).drop 1 =
      [(1 : ℝ), 1] ∧
    (similarityInit wsTokenize stopListA gloveB versesB).verse_data.findIdx?
        (fun verse_text => verse_text.verse == "Genesis 1:1") = some 0 ∧
    get_similar_values (similarityInit wsTokenize stopListA gloveB versesB)
        "Genesis 1:1" 2 =
      [⟨"Genesis 1:2", "alpha", none, none⟩, ⟨"Genesis 1:1", "alpha", none, none⟩] ∧
    get_similar_values (similarityInit wsTokenize stopListA gloveB versesB)
        "Genesis 1:1" 2 ≠
      [⟨"Genesis 1:1", "alpha", none, none⟩, ⟨"Genesis 1:2", "alpha", none, none⟩] := by
  rw [simInit_B]
  refine ⟨?_, ?_, ?_, ?_⟩
  · rw [castState_sim_matrix, getD_map_cast]
    simp [stateBQ, castRow]
  · rw [castState_verse_data]; decide
  · rw [get_similar_values_castState]; decide
  · rw [get_similar_values_castState]; decide

/-- C4 (amended): the query result is the image of an index list along which the
sliced similarity row (queried row with its first column dropped) is
non-increasing.  No particular order among EQUAL values is asserted: numpy's
default argsort is not documented as stable for longer rows, so the program
guarantees no tie order (the counterexample above shows the ascending order the
spec claims does not hold).  The non-increasing property is tie-order
independent — it holds for any valid argsort permutation, in particular for the
`npArgsort` model — and the result is a pure function of the state, hence
deterministic across repeated runs on identical inputs. -/
theorem c4_ranking_order {α : Type} [LinearOrder α] (st : SimState α)
    (verse : String) (k p : Nat) (d : α)
    (hp : st.verse_data.findIdx? (fun verse_text => verse_text.verse == verse) =
      some p) :
    ∃ idxs : List Nat,
      get_similar_values st verse k =
        idxs.map (fun i => st.bible_verses.getD i default) ∧
      idxs.Pairwise (fun i j =>
        ((st.sim_matrix.getD p []).drop 1).getD j d ≤
          ((st.sim_matrix.getD p []).drop 1).getD i d) := by
  refine ⟨((npArgsort ((st.sim_matrix.getD p []).drop 1)).reverse).take k, ?_, ?_⟩
  · simp only [get_similar_values, hp]
  · exact List.Pairwise.imp
      (fun h => h.elim le_of_lt (fun hc => le_of_eq hc.1.symm))
      (final_indices_pairwise _ k d)

/-- C4 witness: the amended ordering claim at the concrete corpus-B state. -/
theorem c4_ranking_order_witness :
    stateBQ.verse_data.findIdx?
        (fun verse_text => verse_text.verse == "Genesis 1:1") = some 0 ∧
    ∃ idxs : List Nat,
      get_similar_values stateBQ "Genesis 1:1" 2 =
        idxs.map (fun i => stateBQ.bible_verses.getD i default) ∧
      idxs.Pairwise (fun i j =>
        ((stateBQ.sim_matrix.getD 0 []).drop 1).getD j 0 ≤
          ((stateBQ.sim_matrix.getD 0 []).drop 1).getD i 0) :=
  ⟨by decide, c4_ranking_order stateBQ "Genesis 1:1" 2 0 0 (by decide)⟩

/-- C5: when the queried reference is at index `p`, the row has the corpus size
`n`, and the requested count exceeds `n - 1`, the query returns exactly `n - 1`
results (the sliced row has `n - 1` entries; `take` and the final `map` cannot
lengthen it) — and, the return type being a plain list, no error is raised. -/
theorem c5_k_exceeding_returns_all {α : Type} [LinearOrder α] (st : SimState α)
    (verse : String) (k p : Nat)
    (hp : st.verse_data.findIdx? (fun verse_text => verse_text.verse == verse) =
      some p)
    (hrow : (st.sim_matrix.getD p []).length = st.verse_data.length)
    (hk : st.verse_data.length - 1 < k) :
    (get_similar_values st verse k).length = st.verse_data.length - 1 := by
  simp only [get_similar_values, hp]
  rw [List.length_map, List.length_take, List.length_reverse, npArgsort_length,
    List.length_drop, hrow]
  omega

/-- C5 witness: corpus A (n = 3) queried with k = 10 returns 2 results. -/
theorem c5_k_exceeding_returns_all_witness :
    stateAQ.verse_data.findIdx?
        (fun verse_text => verse_text.verse == "Genesis 1:1") = some 0 ∧
    (get_similar_values stateAQ "Genesis 1:1" 10).length =
      stateAQ.verse_data.length - 1 :=
  ⟨by decide, c5_k_exceeding_returns_all stateAQ "Genesis 1:1" 10 0 (by decide)
    (by decide) (by decide)⟩

/-- C6: a word absent from the GloVe table makes `get_glove_vector` signal the
word-not-found condition (the `ValueError` with the formatted message, modelled
as `Except.error`) rather than return a default, and the vector-builder loop
body catches it and contributes `np.zeros(200)` for that token, so the
condition never escapes `convert_to_glove_vectors` (whose return type carries no
error case) and never fails the whole passage. -/
theorem c6_word_not_found_zero_vector (glove : List (String × List Rat))
    (word : String) (h : gloveLookup glove word = none) :
    get_glove_vector glove word =
      Except.error (word ++ " was not found in the glove embeddings.") ∧
    tokenContribution glove word = List.replicate 200 0 := by
  constructor
  · rw [get_glove_vector, h]
  · rw [tokenContribution, get_glove_vector, h]

/-- C6 witness: "zeta" is not in the concrete table. -/
theorem c6_word_not_found_zero_vector_witness :
    gloveLookup gloveA "zeta" = none ∧
    (get_glove_vector gloveA "zeta" =
        Except.error ("zeta" ++ " was not found in the glove embeddings.") ∧
      tokenContribution gloveA "zeta" = List.replicate 200 0) :=
  ⟨by decide, c6_word_not_found_zero_vector gloveA "zeta" (by decide)⟩

/-- C7: a token containing "Yahweh" is processed to exactly the same token — and
hence the same GloVe contribution — as the token obtained by replacing "Yahweh"
with "God" (neither is a stopword, and the replacement result contains no
further "Yahweh" occurrence, which always holds since "Yahweh" and "God" share
no characters). -/
theorem c7_yahweh_vectorized_as_god (stop : List String)
    (glove : List (String × List Rat)) (val : String)
    (hy : pyContains val.toList yahwehChars = true)
    (h1 : val ∉ stop)
    (h2 : String.mk (pyReplace yahwehChars godChars val.toList) ∉ stop)
    (h3 : pyContains (pyReplace yahwehChars godChars val.toList) yahwehChars =
      false) :
    processToken stop val =
      processToken stop (String.mk (pyReplace yahwehChars godChars val.toList)) ∧
    (processToken stop val).map (tokenContribution glove) =
      (processToken stop
          (String.mk (pyReplace yahwehChars godChars val.toList))).map
        (tokenContribution glove) := by
  have htl : (String.mk (pyReplace yahwehChars godChars val.toList)).toList =
      pyReplace yahwehChars godChars val.toList := rfl
  have hmain : processToken stop val =
      processToken stop (String.mk (pyReplace yahwehChars godChars val.toList)) := by
    simp only [processToken, if_neg h1, if_neg h2, hy, htl, h3]
    simp
  exact ⟨hmain, by rw [hmain]⟩

/-- C7 witness: the token "Yahweh" itself (replacement "God"). -/
theorem c7_yahweh_vectorized_as_god_witness :
    pyContains "Yahweh".toList yahwehChars = true ∧
    (processToken stopListA "Yahweh" =
        processToken stopListA
          (String.mk (pyReplace yahwehChars godChars "Yahweh".toList)) ∧
      (processToken stopListA "Yahweh").map (tokenContribution gloveA) =
        (processToken stopListA
            (String.mk (pyReplace yahwehChars godChars "Yahweh".toList))).map
          (tokenContribution gloveA)) :=
  ⟨by decide, c7_yahweh_vectorized_as_god stopListA gloveA "Yahweh" (by decide)
    (by decide) (by decide) (by decide)⟩

/-- C8: the cosine similarity matrix is symmetric: for all in-range indices,
entry (i, j) equals entry (j, i) (the dot product is commutative and the norm
product is symmetric). -/
theorem c8_matrix_symmetric (vs : List (List Rat)) (i j : Nat)
    (hi : i < vs.length) (hj : j < vs.length) :
    ((cosine_similarity vs).getD i []).getD j 0 =
      ((cosine_similarity vs).getD j []).getD i 0 := by
  have hentry : ∀ a b, a < vs.length → b < vs.length →
      ∀ (ha : a < vs.length) (hb : b < vs.length),
      ((cosine_similarity vs).getD a []).getD b 0 = cosSim vs[a] vs[b] := by
    intro a b _ _ ha hb
    rw [cosine_similarity, getD_map_of_lt _ _ _ _ ha, getD_map_of_lt _ _ _ _ hb]
  rw [hentry i j hi hj hi hj, hentry j i hj hi hj hi, cosSim_comm]

/-- C8 witness: symmetry of a concrete 2×2 matrix entry pair. -/
theorem c8_matrix_symmetric_witness :
    ((cosine_similarity [[1], [0]]).getD 0 []).getD 1 0 =
      ((cosine_similarity [[1], [0]]).getD 1 []).getD 0 0 :=
  c8_matrix_symmetric [[1], [0]] 0 1 (by decide) (by decide)

/-- C9: after the build, the display copy is exactly the input passage list
(original text untouched), the working copy has the same length, and at every
index the two records carry the same `verse` reference and the same `text`,
with `tokenized_text` populated on the working record. -/
theorem c9_parallel_collections (wordTokenize : String → List String)
    (stop : List String) (glove : List (String × List Rat)) (vd0 : List Verse) :
    (similarityInit wordTokenize stop glove vd0).bible_verses = vd0 ∧
    (similarityInit wordTokenize stop glove vd0).verse_data.length = vd0.length ∧
    ∀ i, i < vd0.length →
      ((similarityInit wordTokenize stop glove vd0).verse_data.getD i
            default).verse = (vd0.getD i default).verse ∧
      ((similarityInit wordTokenize stop glove vd0).verse_data.getD i
            default).text = (vd0.getD i default).text ∧
      ((similarityInit wordTokenize stop glove vd0).verse_data.getD i
            default).tokenized_text.isSome = true := by
  have h0 : (similarityInit wordTokenize stop glove vd0).verse_data =
      vd0.map (fun v =>
        let final_text := (wordTokenize
          (stripPunctuation pyPunctuation v.text)).filterMap (processToken stop)
        { v with tokenized_text := some final_text,
                 vector := some (build_vector glove final_text) }) := by
    show convert_to_glove_vectors glove
        (tokenize_data wordTokenize stop pyPunctuation vd0) = _
    rw [convert_to_glove_vectors, tokenize_data, List.map_map]
    rfl
  refine ⟨rfl, ?_, ?_⟩
  · rw [h0, List.length_map]
  · intro i hi
    rw [h0, List.getD_eq_getElem?_getD, List.getElem?_map,
      List.getElem?_eq_getElem hi, List.getD_eq_getElem?_getD,
      List.getElem?_eq_getElem hi]
    simp

/-- C9 witness: the invariants at index 0 of the concrete corpus A. -/
theorem c9_parallel_collections_witness :
    (similarityInit wsTokenize stopListA gloveA versesA).bible_verses = versesA ∧
    (similarityInit wsTokenize stopListA gloveA versesA).verse_data.length =
      versesA.length ∧
    (((similarityInit wsTokenize stopListA gloveA versesA).verse_data.getD 0
          default).verse = (versesA.getD 0 default).verse ∧
      ((similarityInit wsTokenize stopListA gloveA versesA).verse_data.getD 0
          default).text = (versesA.getD 0 default).text ∧
      ((similarityInit wsTokenize stopListA gloveA versesA).verse_data.getD 0
          default).tokenized_text.isSome = true) :=
  ⟨(c9_parallel_collections wsTokenize stopListA gloveA versesA).1,
    (c9_parallel_collections wsTokenize stopListA gloveA versesA).2.1,
    (c9_parallel_collections wsTokenize stopListA gloveA versesA).2.2 0
      (by decide)⟩

/-- C10: the ranked indices come from the row with its FIRST column removed
(positions 0 through n-2) and are used unshifted against the display list, so
every returned record sits at a display index strictly below n-1; when the
display records are pairwise distinct from the last one, the last passage's
record is never returned. -/
theorem c10_last_passage_never_returned {α : Type} [LinearOrder α]
    (st : SimState α) (verse : String) (k p : Nat)
    (hp : st.verse_data.findIdx? (fun verse_text => verse_text.verse == verse) =
      some p)
    (hrow : (st.sim_matrix.getD p []).length = st.bible_verses.length)
    (hlast : ∀ i, i < st.bible_verses.length - 1 →
      st.bible_verses.getD i default ≠
        st.bible_verses.getD (st.bible_verses.length - 1) default) :
    (∀ x ∈ get_similar_values st verse k,
        ∃ i, i < st.bible_verses.length - 1 ∧
          x = st.bible_verses.getD i default) ∧
    st.bible_verses.getD (st.bible_verses.length - 1) default ∉
      get_similar_values st verse k := by
  have hres : get_similar_values st verse k =
      (((npArgsort ((st.sim_matrix.getD p []).drop 1)).reverse).take k).map
        (fun i => st.bible_verses.getD i default) := by
    simp only [get_similar_values, hp]
  have hforall : ∀ x ∈ get_similar_values st verse k,
      ∃ i, i < st.bible_verses.length - 1 ∧
        x = st.bible_verses.getD i default := by
    intro x hx
    rw [hres] at hx
    rcases List.mem_map.mp hx with ⟨i, hi, hxe⟩
    have hi2 : i ∈ npArgsort ((st.sim_matrix.getD p []).drop 1) :=
      List.mem_reverse.mp ((List.take_sublist k _).subset hi)
    have hi3 : i < ((st.sim_matrix.getD p []).drop 1).length :=
      mem_npArgsort.mp hi2
    rw [List.length_drop, hrow] at hi3
    exact ⟨i, hi3, hxe.symm⟩
  refine ⟨hforall, fun hmem => ?_⟩
  rcases hforall _ hmem with ⟨i, hilt, hieq⟩
  exact hlast i hilt hieq.symm

/-- C10 witness: on corpus A, no result is the display record of the last
passage "Genesis 1:3". -/
theorem c10_last_passage_never_returned_witness :
    stateAQ.verse_data.findIdx?
        (fun verse_text => verse_text.verse == "Genesis 1:1") = some 0 ∧
    ((∀ x ∈ get_similar_values stateAQ "Genesis 1:1" 10,
        ∃ i, i < stateAQ.bible_verses.length - 1 ∧
          x = stateAQ.bible_verses.getD i default) ∧
      stateAQ.bible_verses.getD (stateAQ.bible_verses.length - 1) default ∉
        get_similar_values stateAQ "Genesis 1:1" 10) :=
  ⟨by decide, c10_last_passage_never_returned stateAQ "Genesis 1:1" 10 0
    (by decide) (by decide) (by decide)⟩
